import Mathlib

/-!
Verification of the CyberGarden indoor-positioning anchor firmware
(observation-to-tracked-device pipeline).

Two source variants are embedded:
* Model A, from src/unnamed/part_000: fixed array of 10 device slots,
  distance computed directly from the raw RSSI with fixed calibration
  n = 2.5, A = -45 and clamp [0.1, 20].
* Model B, from src/indoor_positioning/anchors/anchor2/anchor2.ino:
  growable device list, one Kalman filter per MAC, per-channel
  calibration table, 5 GHz band correction and clamp [0.1, 50].

Rational arithmetic models the exact recurrences of the Kalman filter;
the path-loss power law pow(10, x) is modelled over the reals.
-/

namespace IndoorPositioning

/-! ### Kalman filter (class KalmanFilter in anchor2/anchor2.ino) -/

/-- Filter state: estimate X and error covariance P. Q and R are the
fixed constants of the class. -/
structure KalmanState where
  X : ℚ
  P : ℚ
deriving DecidableEq

/-- Process noise Q = 0.1. -/
def kalmanQ : ℚ := 1/10

/-- Measurement noise R = 2.0. -/
def kalmanR : ℚ := 2

/-- Fresh filter: P = 1.0, X = 0.0 (also the state after reset). -/
def kalmanInit : KalmanState := ⟨0, 1⟩

/-- KalmanFilter.update: predict P += Q, gain K = P/(P+R),
correct X += K(m - X), P = (1-K)P; returns the new X. -/
def kalmanUpdate (s : KalmanState) (m : ℚ) : ℚ × KalmanState :=
  let P1 := s.P + kalmanQ
  let K := P1 / (P1 + kalmanR)
  let X1 := s.X + K * (m - s.X)
  let P2 := (1 - K) * P1
  (X1, ⟨X1, P2⟩)

/-- Iterate the filter k times on the same measurement m. -/
def kalmanIter (s : KalmanState) (m : ℚ) : Nat → KalmanState
  | 0 => s
  | k + 1 => (kalmanUpdate (kalmanIter s m k) m).2

/-! ### Channel calibration table (channelCalibrations in anchor2/anchor2.ino) -/

structure ChannelCalibration where
  channel : Int
  n : ℚ
  A : ℚ
deriving DecidableEq

def channelCalibrations : List ChannelCalibration :=
  [⟨1, 22/10, -45⟩, ⟨6, 23/10, -45⟩, ⟨11, 24/10, -45⟩,
   ⟨36, 21/10, -40⟩, ⟨40, 21/10, -40⟩, ⟨44, 21/10, -40⟩, ⟨48, 21/10, -40⟩]

/-- The (n, A) pair used by calculateDistance: first table entry whose
channel matches, else the defaults n = 2.5, A = -45. -/
def calibFor (channel : Int) : ℚ × ℚ :=
  match channelCalibrations.find? (fun c => c.channel == channel) with
  | some c => (c.n, c.A)
  | none => (25/10, -45)

/-! ### Distance estimators -/

/-- Final clamp of anchor2/anchor2.ino: cap at 50, then floor at 0.1. -/
noncomputable def clampB (d : ℝ) : ℝ :=
  if 50 < d then 50 else if d < 0.1 then 0.1 else d

/-- 5 GHz correction of anchor2/anchor2.ino: channels above 14 scale by 0.9. -/
noncomputable def bandCorrect (channel : Int) (d : ℝ) : ℝ :=
  if 14 < channel then d * 0.9 else d

/-- calculateDistance(rssi, channel) of anchor2/anchor2.ino. -/
noncomputable def calculateDistance (rssi : ℝ) (channel : Int) : ℝ :=
  if ((calibFor channel).2 : ℝ) ≤ rssi then 0.1
  else
    clampB (bandCorrect channel
      ((10 : ℝ) ^ ((((calibFor channel).2 : ℝ) - rssi) / (10 * ((calibFor channel).1 : ℝ)))))

/-- Final clamp of part_000: cap at 20, then floor at 0.1. -/
noncomputable def clampA (d : ℝ) : ℝ :=
  if 20 < d then 20 else if d < 0.1 then 0.1 else d

/-- calculateDistance(rssi) of src/unnamed/part_000: fixed n = 2.5, A = -45. -/
noncomputable def calculateDistanceA (rssi : Int) : ℝ :=
  if (-45 : ℝ) ≤ (rssi : ℝ) then 0.1
  else clampA ((10 : ℝ) ^ (((-45 : ℝ) - (rssi : ℝ)) / (10 * (25/10 : ℝ))))

/-! ### Model A registry (src/unnamed/part_000): fixed array of 10 slots -/

structure DeviceInfoA where
  mac : String
  rssi : Int
  distance : ℝ
  lastSeen : Nat
  active : Bool

/-- The devices array right after setup: 10 slots, all inactive. -/
def initDevicesA : List DeviceInfoA :=
  List.replicate 10 ⟨"", 0, 0, 0, false⟩

/-- First loop of updateDevice in part_000: update the first active slot
holding this mac, if any. -/
noncomputable def updateExistingA :
    List DeviceInfoA → String → Int → Nat → Option (List DeviceInfoA)
  | [], _, _, _ => none
  | d :: rest, mac, rssi, now =>
    if d.active && d.mac == mac then
      some ({ d with rssi := rssi, distance := calculateDistanceA rssi, lastSeen := now } :: rest)
    else
      match updateExistingA rest mac rssi now with
      | some rest2 => some (d :: rest2)
      | none => none

/-- Second loop of updateDevice in part_000: claim the first inactive slot. -/
noncomputable def addNewA :
    List DeviceInfoA → String → Int → Nat → Option (List DeviceInfoA)
  | [], _, _, _ => none
  | d :: rest, mac, rssi, now =>
    if !d.active then
      some ({ mac := mac, rssi := rssi, distance := calculateDistanceA rssi, lastSeen := now, active := true } :: rest)
    else
      match addNewA rest mac rssi now with
      | some rest2 => some (d :: rest2)
      | none => none

/-- updateDevice of part_000: update in place, else claim a free slot,
else report the list full and leave the array untouched. Returns true
iff a new device was added. -/
noncomputable def updateDeviceA (ds : List DeviceInfoA) (mac : String)
    (rssi : Int) (now : Nat) : Bool × List DeviceInfoA :=
  match updateExistingA ds mac rssi now with
  | some ds2 => (false, ds2)
  | none =>
    match addNewA ds mac rssi now with
    | some ds2 => (true, ds2)
    | none => (false, ds)

/-- countActiveDevices of part_000. -/
def countActiveDevicesA (ds : List DeviceInfoA) : Nat :=
  ds.countP (fun d => d.active)

/-- cleanupOldDevices of part_000: deactivate slots not seen for 15 s. -/
def cleanupOldDevicesA (ds : List DeviceInfoA) (now : Nat) : List DeviceInfoA :=
  ds.map (fun d => if d.active ∧ 15000 < now - d.lastSeen
                   then { d with active := false } else d)

/-- A whole sequence of upserts starting from the freshly initialised array. -/
noncomputable def applyAllA (obs : List (String × Int × Nat)) : List DeviceInfoA :=
  obs.foldl (fun ds o => (updateDeviceA ds o.1 o.2.1 o.2.2).2) initDevicesA

/-! ### Model B registry (anchor2/anchor2.ino): growable list plus Kalman map -/

/-- struct DeviceInfo of anchor2/anchor2.ino. -/
structure DeviceInfo where
  mac : String
  ssid : String
  hidden_ssid : Bool
  rssi : Int
  distance : ℝ
  lastSeen : Nat
  active : Bool
  channel : Int
  rssi_filtered : ℚ
  packet_count : Nat
  timestamp : Nat

/-- The std::map of per-MAC Kalman filters, as an association list. -/
abbrev FilterMap : Type := List (String × KalmanState)

/-- Lookup in the filter map (std::map::find). -/
def mapFind (m : FilterMap) (k : String) : Option KalmanState :=
  (m.find? (fun p => p.1 == k)).map (fun p => p.2)

/-- Store a value under a key: overwrite the existing entry, else append. -/
def mapSet : FilterMap → String → KalmanState → FilterMap
  | [], k, v => [(k, v)]
  | p :: rest, k, v => if p.1 == k then (k, v) :: rest else p :: mapSet rest k v

/-- std::map::erase by key. -/
def mapErase (m : FilterMap) (k : String) : FilterMap :=
  m.filter (fun p => !(p.1 == k))

/-- The first lines of updateDevice: create the filter for this mac if it
does not exist yet, run one update on the raw RSSI, store the new filter
state, and hand back the filtered RSSI. -/
def filterStep (m : FilterMap) (k : String) (meas : ℚ) : ℚ × FilterMap :=
  let s0 := match mapFind m k with
            | some s => s
            | none => kalmanInit
  let r := kalmanUpdate s0 meas
  (r.1, mapSet m k r.2)

/-- Whole state of the anchor sketch: the devices vector and the filter map. -/
structure AnchorState where
  devices : List DeviceInfo
  kalmanFilters : FilterMap

/-- In-place update of a matched record in updateDevice: new raw and
filtered RSSI, distance recomputed from the filtered RSSI and the
observed channel, fresh lastSeen and timestamp, packet_count incremented,
and the SSID replaced only when a hidden SSID becomes known. The stored
channel field is not reassigned. -/
noncomputable def updatedRecord (d : DeviceInfo) (ssid : String) (hid : Bool)
    (rssi channel : Int) (filtered : ℚ) (now ts : Nat) : DeviceInfo :=
  let d1 := { d with rssi := rssi, rssi_filtered := filtered, distance := calculateDistance (filtered : ℝ) channel, lastSeen := now, packet_count := d.packet_count + 1, timestamp := ts }
  if d1.hidden_ssid && !hid then { d1 with ssid := ssid, hidden_ssid := false } else d1

/-- The search loop of updateDevice: update the first active record with
this mac, if any. -/
noncomputable def updateExisting :
    List DeviceInfo → String → String → Bool → Int → Int → ℚ → Nat → Nat →
    Option (List DeviceInfo)
  | [], _, _, _, _, _, _, _, _ => none
  | d :: rest, mac, ssid, hid, rssi, channel, filtered, now, ts =>
    if d.active && d.mac == mac then
      some (updatedRecord d ssid hid rssi channel filtered now ts :: rest)
    else
      match updateExisting rest mac ssid hid rssi channel filtered now ts with
      | some rest2 => some (d :: rest2)
      | none => none

/-- The fresh DeviceInfo pushed back for a previously unseen mac. -/
noncomputable def newRecord (mac ssid : String) (hid : Bool) (rssi channel : Int)
    (filtered : ℚ) (now ts : Nat) : DeviceInfo :=
  { mac := mac, ssid := ssid, hidden_ssid := hid, rssi := rssi, distance := calculateDistance (filtered : ℝ) channel, lastSeen := now, active := true, channel := channel, rssi_filtered := filtered, packet_count := 1, timestamp := ts }

/-- updateDevice of anchor2/anchor2.ino. Returns true iff a new device
record was appended. -/
noncomputable def updateDevice (s : AnchorState) (mac ssid : String) (hid : Bool)
    (rssi channel : Int) (now ts : Nat) : Bool × AnchorState :=
  let fr := filterStep s.kalmanFilters mac (rssi : ℚ)
  match updateExisting s.devices mac ssid hid rssi channel fr.1 now ts with
  | some ds => (false, ⟨ds, fr.2⟩)
  | none => (true, ⟨s.devices ++ [newRecord mac ssid hid rssi channel fr.1 now ts], fr.2⟩)

/-- The erase loop of cleanupOldDevices: drop every active record not seen
for more than 15 s and erase its Kalman filter. -/
def cleanupStep : List DeviceInfo → FilterMap → Nat → List DeviceInfo × FilterMap
  | [], fs, _ => ([], fs)
  | d :: rest, fs, now =>
    if d.active ∧ 15000 < now - d.lastSeen then
      cleanupStep rest (mapErase fs d.mac) now
    else
      let r := cleanupStep rest fs now
      (d :: r.1, r.2)

/-- cleanupOldDevices of anchor2/anchor2.ino. -/
def cleanupOldDevices (s : AnchorState) (now : Nat) : AnchorState :=
  let r := cleanupStep s.devices s.kalmanFilters now
  ⟨r.1, r.2⟩

/-- The static blocklist of the node itself (isOurOwnDevice). -/
def ourMacs : List String :=
  ["AA:BB:CC:DD:EE:01", "AA:BB:CC:DD:EE:02", "AA:BB:CC:DD:EE:03", "AA:BB:CC:DD:EE:04"]

def isOurOwnDevice (mac : String) : Bool :=
  ourMacs.any (fun m => mac == m)

/-- One iteration of the scan loop in scanForDevices: skip empty or
blocklisted macs, mark an empty SSID as hidden and substitute the
placeholder, then upsert. -/
noncomputable def processScanResult (s : AnchorState) (mac ssid : String)
    (rssi channel : Int) (now ts : Nat) : AnchorState :=
  if mac.length = 0 ∨ isOurOwnDevice mac then s
  else
    let hid := ssid.length = 0
    let ssid2 := if hid then "<Hidden_Network>" else ssid
    (updateDevice s mac ssid2 hid rssi channel now ts).2

/-- Active records carrying a given mac (all records of model B are active). -/
def macCount (ds : List DeviceInfo) (mac : String) : Nat :=
  ds.countP (fun d => d.active && d.mac == mac)

/-- Filter-map entries stored under a given mac. -/
def filterCount (fs : FilterMap) (mac : String) : Nat :=
  fs.countP (fun p => p.1 == mac)

/-! ### Helper lemmas: calibration and clamping -/

lemma calibFor_n_pos (channel : Int) : 0 < (calibFor channel).1 := by
  unfold calibFor
  cases h : channelCalibrations.find? (fun c => c.channel == channel) with
  | none => norm_num
  | some c =>
    have hc := List.mem_of_find?_eq_some h
    simp only [channelCalibrations, List.mem_cons, List.not_mem_nil, or_false] at hc
    rcases hc with h1 | h1 | h1 | h1 | h1 | h1 | h1 <;> subst h1 <;> norm_num

lemma clampB_bounds (d : ℝ) : 0.1 ≤ clampB d ∧ clampB d ≤ 50 := by
  unfold clampB
  split_ifs <;> constructor <;> linarith

lemma clampB_mono {x y : ℝ} (h : x ≤ y) : clampB x ≤ clampB y := by
  unfold clampB
  split_ifs <;> linarith

lemma bandCorrect_mono (channel : Int) {x y : ℝ} (h : x ≤ y) :
    bandCorrect channel x ≤ bandCorrect channel y := by
  unfold bandCorrect
  split_ifs <;> linarith

lemma calculateDistance_bounds (rssi : ℝ) (channel : Int) :
    0.1 ≤ calculateDistance rssi channel ∧ calculateDistance rssi channel ≤ 50 := by
  unfold calculateDistance
  split_ifs with h
  · norm_num
  · exact clampB_bounds _

/-! ### Helper lemmas: Kalman filter -/

lemma kalmanUpdate_error (s : KalmanState) (m : ℚ) (h : 0 ≤ s.P) :
    m - (kalmanUpdate s m).2.X = 2 / (s.P + 1/10 + 2) * (m - s.X) ∧
    0 ≤ (kalmanUpdate s m).2.P := by
  have hP1 : (0:ℚ) < s.P + 1/10 := by linarith
  have hP2 : (0:ℚ) < s.P + 1/10 + 2 := by linarith
  constructor
  · show m - (s.X + (s.P + kalmanQ) / (s.P + kalmanQ + kalmanR) * (m - s.X)) = _
    unfold kalmanQ kalmanR
    field_simp
    ring
  · show 0 ≤ (1 - (s.P + kalmanQ) / (s.P + kalmanQ + kalmanR)) * (s.P + kalmanQ)
    unfold kalmanQ kalmanR
    have hK : (s.P + 1/10) / (s.P + 1/10 + 2) ≤ 1 := by
      rw [div_le_one hP2]; linarith
    have : (0:ℚ) ≤ 1 - (s.P + 1/10) / (s.P + 1/10 + 2) := by linarith
    exact mul_nonneg this (le_of_lt hP1)

lemma kalmanIter_P_nonneg (s : KalmanState) (m : ℚ) (h : 0 ≤ s.P) :
    ∀ k, 0 ≤ (kalmanIter s m k).P := by
  intro k
  induction k with
  | zero => exact h
  | succ k ih => exact (kalmanUpdate_error (kalmanIter s m k) m ih).2

/-! ### Claims C5 and C6: filter step and convergence -/

/-- Claim C5: one update step of the filter performs exactly
P1 = P + Q, K = P1/(P1 + R), X1 = X + K(m - X), P2 = (1 - K)P1 with
Q = 0.1 and R = 2.0, and returns the updated X as the smoothed signal. -/
theorem kalman_update_step_spec (X P m : ℚ) :
    kalmanUpdate ⟨X, P⟩ m =
      (X + (P + 1/10) / (P + 1/10 + 2) * (m - X),
       ⟨X + (P + 1/10) / (P + 1/10 + 2) * (m - X),
        (1 - (P + 1/10) / (P + 1/10 + 2)) * (P + 1/10)⟩) ∧
    (kalmanUpdate ⟨X, P⟩ m).1 = (kalmanUpdate ⟨X, P⟩ m).2.X :=
  ⟨rfl, rfl⟩

/-- Claim C6: feeding the filter the same raw measurement m over and over
drives X toward m without oscillation: the error m - X never grows in
absolute value and never changes sign. P is nonnegative for every state
the sketch constructs (P = 1.0 at creation and on reset, and each update
keeps P nonnegative). -/
theorem kalman_convergence (s : KalmanState) (m : ℚ) (hP : 0 ≤ s.P) (k : Nat) :
    |m - (kalmanIter s m (k+1)).X| ≤ |m - (kalmanIter s m k).X| ∧
    0 ≤ (m - (kalmanIter s m (k+1)).X) * (m - (kalmanIter s m k).X) := by
  have htP : 0 ≤ (kalmanIter s m k).P := kalmanIter_P_nonneg s m hP k
  have herr := (kalmanUpdate_error (kalmanIter s m k) m htP).1
  have hstep : kalmanIter s m (k+1) = (kalmanUpdate (kalmanIter s m k) m).2 := rfl
  set t := kalmanIter s m k with ht
  have hpos : (0:ℚ) < t.P + 1/10 + 2 := by linarith
  have hc0 : (0:ℚ) < 2 / (t.P + 1/10 + 2) := by positivity
  have hc1 : 2 / (t.P + 1/10 + 2) ≤ 1 := by
    rw [div_le_one hpos]; linarith
  rw [hstep, herr]
  constructor
  · rw [abs_mul, abs_of_pos hc0]
    nlinarith [abs_nonneg (m - t.X)]
  · nlinarith [sq_nonneg (m - t.X)]

/-- Witness for C6: concrete filter state X = 0, P = 1, measurement 5,
first step. -/
theorem kalman_convergence_witness :
    |5 - (kalmanIter ⟨0, 1⟩ 5 1).X| ≤ |5 - (kalmanIter ⟨0, 1⟩ 5 0).X| ∧
    0 ≤ (5 - (kalmanIter ⟨0, 1⟩ 5 1).X) * (5 - (kalmanIter ⟨0, 1⟩ 5 0).X) :=
  kalman_convergence ⟨0, 1⟩ 5 (by norm_num) 0

/-! ### Claim C3: the estimator is monotone non-increasing in signal strength -/

/-- Claim C3: for a fixed channel, a stronger (larger) signal never yields
a larger distance. -/
theorem calculateDistance_antitone (channel : Int) (s1 s2 : ℝ) (h : s1 ≤ s2) :
    calculateDistance s2 channel ≤ calculateDistance s1 channel := by
  have hn : (0:ℝ) < ((calibFor channel).1 : ℝ) := by
    exact_mod_cast calibFor_n_pos channel
  unfold calculateDistance
  split_ifs with h2 h1 h1
  · exact le_refl _
  · exact (clampB_bounds _).1
  · exact absurd (le_trans h1 h) h2
  · apply clampB_mono
    apply bandCorrect_mono
    apply Real.rpow_le_rpow_of_exponent_le (by norm_num)
    have h10n : (0:ℝ) < 10 * ((calibFor channel).1 : ℝ) := by linarith
    rw [div_le_div_iff_of_pos_right h10n]
    linarith

/-- Witness for C3: channel 6, signals -60 and -50. -/
theorem calculateDistance_antitone_witness :
    calculateDistance (-50) 6 ≤ calculateDistance (-60) 6 :=
  calculateDistance_antitone 6 (-60) (-50) (by norm_num)

/-! ### Helper lemmas: model B registry -/

lemma updatedRecord_mac (d : DeviceInfo) (ssid : String) (hid : Bool)
    (rssi channel : Int) (filtered : ℚ) (now ts : Nat) :
    (updatedRecord d ssid hid rssi channel filtered now ts).mac = d.mac := by
  simp only [updatedRecord]
  split <;> rfl

lemma updatedRecord_active (d : DeviceInfo) (ssid : String) (hid : Bool)
    (rssi channel : Int) (filtered : ℚ) (now ts : Nat) :
    (updatedRecord d ssid hid rssi channel filtered now ts).active = d.active := by
  simp only [updatedRecord]
  split <;> rfl

lemma updatedRecord_channel (d : DeviceInfo) (ssid : String) (hid : Bool)
    (rssi channel : Int) (filtered : ℚ) (now ts : Nat) :
    (updatedRecord d ssid hid rssi channel filtered now ts).channel = d.channel := by
  simp only [updatedRecord]
  split <;> rfl

lemma updatedRecord_distance (d : DeviceInfo) (ssid : String) (hid : Bool)
    (rssi channel : Int) (filtered : ℚ) (now ts : Nat) :
    (updatedRecord d ssid hid rssi channel filtered now ts).distance =
      calculateDistance (filtered : ℝ) channel := by
  simp only [updatedRecord]
  split <;> rfl

lemma updatedRecord_hidden (d : DeviceInfo) (ssid : String) (hid : Bool)
    (rssi channel : Int) (filtered : ℚ) (now ts : Nat) :
    (updatedRecord d ssid hid rssi channel filtered now ts).hidden_ssid =
      (d.hidden_ssid && hid) := by
  unfold updatedRecord
  cases hd : d.hidden_ssid <;> cases hh : hid <;> simp [hd, hh]

lemma updatedRecord_ssid_of_concrete (d : DeviceInfo) (ssid : String) (hid : Bool)
    (rssi channel : Int) (filtered : ℚ) (now ts : Nat) (h : d.hidden_ssid = false) :
    (updatedRecord d ssid hid rssi channel filtered now ts).ssid = d.ssid := by
  unfold updatedRecord
  simp [h]

lemma updateExisting_cons (d : DeviceInfo) (rest : List DeviceInfo) (mac ssid : String)
    (hid : Bool) (rssi channel : Int) (filtered : ℚ) (now ts : Nat) :
    updateExisting (d :: rest) mac ssid hid rssi channel filtered now ts =
      if d.active && d.mac == mac
      then some (updatedRecord d ssid hid rssi channel filtered now ts :: rest)
      else Option.map (fun r => d :: r)
        (updateExisting rest mac ssid hid rssi channel filtered now ts) := by
  simp only [updateExisting]
  split_ifs
  · rfl
  · cases updateExisting rest mac ssid hid rssi channel filtered now ts <;> rfl

lemma updateExisting_none_iff (ds : List DeviceInfo) (mac ssid : String)
    (hid : Bool) (rssi channel : Int) (filtered : ℚ) (now ts : Nat) :
    updateExisting ds mac ssid hid rssi channel filtered now ts = none ↔
      ∀ d ∈ ds, ¬(d.active = true ∧ d.mac = mac) := by
  induction ds with
  | nil => simp [updateExisting]
  | cons d rest ih =>
    rw [updateExisting_cons]
    by_cases hm : d.active && d.mac == mac
    · rw [if_pos hm]
      simp only [Bool.and_eq_true, beq_iff_eq] at hm
      simp [hm]
    · rw [if_neg hm]
      simp only [Bool.and_eq_true, beq_iff_eq, not_and] at hm
      simp only [Option.map_eq_none', ih, List.mem_cons]
      constructor
      · rintro hall d2 (rfl | hd2)
        · rintro ⟨ha, hmc⟩
          exact hm ha hmc
        · exact hall d2 hd2
      · intro hall d2 hd2
        exact hall d2 (Or.inr hd2)

lemma updateExisting_mem (ds ds2 : List DeviceInfo) (mac ssid : String)
    (hid : Bool) (rssi channel : Int) (filtered : ℚ) (now ts : Nat)
    (h : updateExisting ds mac ssid hid rssi channel filtered now ts = some ds2) :
    ∀ d2 ∈ ds2, d2 ∈ ds ∨
      ∃ d ∈ ds, d2 = updatedRecord d ssid hid rssi channel filtered now ts := by
  induction ds generalizing ds2 with
  | nil => simp [updateExisting] at h
  | cons d rest ih =>
    rw [updateExisting_cons] at h
    by_cases hm : d.active && d.mac == mac
    · rw [if_pos hm] at h
      injection h with h
      subst h
      intro d2 hd2
      rcases List.mem_cons.mp hd2 with rfl | hd3
      · exact Or.inr ⟨d, List.mem_cons_self _ _, rfl⟩
      · exact Or.inl (List.mem_cons_of_mem _ hd3)
    · rw [if_neg hm] at h
      cases hrec : updateExisting rest mac ssid hid rssi channel filtered now ts with
      | none => rw [hrec] at h; simp at h
      | some r =>
        rw [hrec] at h
        injection h with h
        subst h
        intro d2 hd2
        rcases List.mem_cons.mp hd2 with rfl | hd3
        · exact Or.inl (List.mem_cons_self _ _)
        · rcases ih r hrec d2 hd3 with hin | ⟨d0, hd0, rfl⟩
          · exact Or.inl (List.mem_cons_of_mem _ hin)
          · exact Or.inr ⟨d0, List.mem_cons_of_mem _ hd0, rfl⟩

lemma updateExisting_macCount (ds ds2 : List DeviceInfo) (mac ssid : String)
    (hid : Bool) (rssi channel : Int) (filtered : ℚ) (now ts : Nat)
    (h : updateExisting ds mac ssid hid rssi channel filtered now ts = some ds2) :
    macCount ds2 mac = macCount ds mac := by
  induction ds generalizing ds2 with
  | nil => simp [updateExisting] at h
  | cons d rest ih =>
    rw [updateExisting_cons] at h
    by_cases hm : d.active && d.mac == mac
    · rw [if_pos hm] at h
      injection h with h
      subst h
      simp only [macCount, List.countP_cons, updatedRecord_active, updatedRecord_mac]
    · rw [if_neg hm] at h
      cases hrec : updateExisting rest mac ssid hid rssi channel filtered now ts with
      | none => rw [hrec] at h; simp at h
      | some r =>
        rw [hrec] at h
        injection h with h
        subst h
        simp only [macCount, List.countP_cons] at ih ⊢
        rw [ih r hrec]

lemma macCount_append_new (ds : List DeviceInfo) (mac ssid : String) (hid : Bool)
    (rssi channel : Int) (filtered : ℚ) (now ts : Nat) :
    macCount (ds ++ [newRecord mac ssid hid rssi channel filtered now ts]) mac =
      macCount ds mac + 1 := by
  simp [macCount, List.countP_append, newRecord, List.countP_cons]

lemma filterCount_mapSet (fs : FilterMap) (k : String) (v : KalmanState) :
    filterCount (mapSet fs k v) k =
      if filterCount fs k = 0 then 1 else filterCount fs k := by
  induction fs with
  | nil => simp [mapSet, filterCount, List.countP_cons]
  | cons p rest ih =>
    by_cases hp : p.1 == k
    · simp only [mapSet, hp, if_pos, filterCount, List.countP_cons]
      simp [hp]
    · simp only [mapSet, hp, Bool.false_eq_true, if_false, filterCount, List.countP_cons]
      simp only [filterCount] at ih
      rw [ih]
      simp [hp]

lemma cleanupStep_devices_mem (ds : List DeviceInfo) (fs : FilterMap) (now : Nat)
    (d : DeviceInfo) :
    d ∈ (cleanupStep ds fs now).1 ↔
      d ∈ ds ∧ ¬(d.active = true ∧ 15000 < now - d.lastSeen) := by
  induction ds generalizing fs with
  | nil => simp [cleanupStep]
  | cons h rest ih =>
    simp only [cleanupStep]
    by_cases hh : h.active = true ∧ 15000 < now - h.lastSeen
    · rw [if_pos hh, ih]
      constructor
      · rintro ⟨hm, hnp⟩
        exact ⟨List.mem_cons_of_mem _ hm, hnp⟩
      · rintro ⟨hm, hnp⟩
        rcases List.mem_cons.mp hm with rfl | hm2
        · exact absurd hh hnp
        · exact ⟨hm2, hnp⟩
    · rw [if_neg hh]
      simp only [List.mem_cons, ih]
      constructor
      · rintro (rfl | ⟨hm, hnp⟩)
        · exact ⟨Or.inl rfl, hh⟩
        · exact ⟨Or.inr hm, hnp⟩
      · rintro ⟨rfl | hm, hnp⟩
        · exact Or.inl rfl
        · exact Or.inr ⟨hm, hnp⟩

lemma cleanupStep_filters_sub (ds : List DeviceInfo) (fs : FilterMap) (now : Nat) :
    ∀ p ∈ (cleanupStep ds fs now).2, p ∈ fs := by
  induction ds generalizing fs with
  | nil => intro p hp; exact hp
  | cons h rest ih =>
    simp only [cleanupStep]
    by_cases hh : h.active = true ∧ 15000 < now - h.lastSeen
    · rw [if_pos hh]
      intro p hp
      exact List.mem_of_mem_filter (ih (mapErase fs h.mac) p hp)
    · rw [if_neg hh]
      exact ih fs

lemma cleanupStep_filters_erased (ds : List DeviceInfo) (fs : FilterMap) (now : Nat)
    (d : DeviceInfo) (hd : d ∈ ds) (ha : d.active = true)
    (hs : 15000 < now - d.lastSeen) :
    ∀ p ∈ (cleanupStep ds fs now).2, p.1 ≠ d.mac := by
  induction ds generalizing fs with
  | nil => simp at hd
  | cons h rest ih =>
    simp only [cleanupStep]
    rcases List.mem_cons.mp hd with rfl | hd2
    · rw [if_pos ⟨ha, hs⟩]
      intro p hp
      have hp2 := cleanupStep_filters_sub rest (mapErase fs d.mac) now p hp
      have := List.of_mem_filter hp2
      simpa using this
    · by_cases hh : h.active = true ∧ 15000 < now - h.lastSeen
      · rw [if_pos hh]
        exact ih (mapErase fs h.mac) hd2
      · rw [if_neg hh]
        intro p hp
        exact ih fs hd2 p hp

lemma updatedRecord_rssi (d : DeviceInfo) (ssid : String) (hid : Bool)
    (rssi channel : Int) (filtered : ℚ) (now ts : Nat) :
    (updatedRecord d ssid hid rssi channel filtered now ts).rssi = rssi := by
  simp only [updatedRecord]
  split <;> rfl

lemma updatedRecord_rssi_filtered (d : DeviceInfo) (ssid : String) (hid : Bool)
    (rssi channel : Int) (filtered : ℚ) (now ts : Nat) :
    (updatedRecord d ssid hid rssi channel filtered now ts).rssi_filtered = filtered := by
  simp only [updatedRecord]
  split <;> rfl

lemma updatedRecord_lastSeen (d : DeviceInfo) (ssid : String) (hid : Bool)
    (rssi channel : Int) (filtered : ℚ) (now ts : Nat) :
    (updatedRecord d ssid hid rssi channel filtered now ts).lastSeen = now := by
  simp only [updatedRecord]
  split <;> rfl

lemma updatedRecord_packet_count (d : DeviceInfo) (ssid : String) (hid : Bool)
    (rssi channel : Int) (filtered : ℚ) (now ts : Nat) :
    (updatedRecord d ssid hid rssi channel filtered now ts).packet_count =
      d.packet_count + 1 := by
  simp only [updatedRecord]
  split <;> rfl

lemma updatedRecord_timestamp (d : DeviceInfo) (ssid : String) (hid : Bool)
    (rssi channel : Int) (filtered : ℚ) (now ts : Nat) :
    (updatedRecord d ssid hid rssi channel filtered now ts).timestamp = ts := by
  simp only [updatedRecord]
  split <;> rfl

lemma updateExisting_split (pre suf : List DeviceInfo) (d : DeviceInfo)
    (mac ssid : String) (hid : Bool) (rssi channel : Int) (filtered : ℚ) (now ts : Nat)
    (hpre : ∀ d2 ∈ pre, ¬(d2.active = true ∧ d2.mac = mac))
    (ha : d.active = true) (hm : d.mac = mac) :
    updateExisting (pre ++ d :: suf) mac ssid hid rssi channel filtered now ts =
      some (pre ++ updatedRecord d ssid hid rssi channel filtered now ts :: suf) := by
  induction pre with
  | nil =>
    have hc : (d.active && d.mac == mac) = true := by simp [ha, hm]
    rw [List.nil_append, updateExisting_cons, if_pos hc, List.nil_append]
  | cons p rest ih =>
    have hp : ¬(p.active && p.mac == mac) = true := by
      simp only [Bool.and_eq_true, beq_iff_eq]
      exact hpre p (List.mem_cons_self _ _)
    rw [List.cons_append, updateExisting_cons, if_neg hp,
        ih (fun d2 hd2 => hpre d2 (List.mem_cons_of_mem _ hd2))]
    rfl

lemma newRecord_distance (mac ssid : String) (hid : Bool) (rssi channel : Int)
    (filtered : ℚ) (now ts : Nat) :
    (newRecord mac ssid hid rssi channel filtered now ts).distance =
      calculateDistance (filtered : ℝ) channel := rfl

lemma updateDevice_devices_some (s : AnchorState) (mac ssid : String) (hid : Bool)
    (rssi channel : Int) (now ts : Nat) (ds2 : List DeviceInfo)
    (h : updateExisting s.devices mac ssid hid rssi channel
          (filterStep s.kalmanFilters mac (rssi : ℚ)).1 now ts = some ds2) :
    (updateDevice s mac ssid hid rssi channel now ts).2.devices = ds2 := by
  simp only [updateDevice, h]

lemma updateDevice_devices_none (s : AnchorState) (mac ssid : String) (hid : Bool)
    (rssi channel : Int) (now ts : Nat)
    (h : updateExisting s.devices mac ssid hid rssi channel
          (filterStep s.kalmanFilters mac (rssi : ℚ)).1 now ts = none) :
    (updateDevice s mac ssid hid rssi channel now ts).2.devices =
      s.devices ++ [newRecord mac ssid hid rssi channel
        (filterStep s.kalmanFilters mac (rssi : ℚ)).1 now ts] := by
  simp only [updateDevice, h]

lemma updateDevice_filters (s : AnchorState) (mac ssid : String) (hid : Bool)
    (rssi channel : Int) (now ts : Nat) :
    (updateDevice s mac ssid hid rssi channel now ts).2.kalmanFilters =
      (filterStep s.kalmanFilters mac (rssi : ℚ)).2 := by
  cases h : updateExisting s.devices mac ssid hid rssi channel
      (filterStep s.kalmanFilters mac (rssi : ℚ)).1 now ts <;>
    simp only [updateDevice, h]

/-! ### Claim C4: every distance is within the clamp bounds -/

/-- Claim C4: the estimator output always lies in [0.1, 50], and both
registry operations (upsert and the staleness sweep) keep the distance
field of every tracked record inside those bounds. -/
theorem distance_always_clamped :
    (∀ (rssi : ℝ) (channel : Int),
      0.1 ≤ calculateDistance rssi channel ∧ calculateDistance rssi channel ≤ 50) ∧
    (∀ (s : AnchorState) (mac ssid : String) (hid : Bool) (rssi channel : Int) (now ts : Nat),
      (∀ d ∈ s.devices, 0.1 ≤ d.distance ∧ d.distance ≤ 50) →
      ∀ d2 ∈ (updateDevice s mac ssid hid rssi channel now ts).2.devices,
        0.1 ≤ d2.distance ∧ d2.distance ≤ 50) ∧
    (∀ (s : AnchorState) (now : Nat),
      (∀ d ∈ s.devices, 0.1 ≤ d.distance ∧ d.distance ≤ 50) →
      ∀ d2 ∈ (cleanupOldDevices s now).devices,
        0.1 ≤ d2.distance ∧ d2.distance ≤ 50) := by
  refine ⟨calculateDistance_bounds, ?_, ?_⟩
  · intro s mac ssid hid rssi channel now ts hpre d2 hd2
    cases h : updateExisting s.devices mac ssid hid rssi channel
        (filterStep s.kalmanFilters mac (rssi : ℚ)).1 now ts with
    | some ds2 =>
      rw [updateDevice_devices_some s mac ssid hid rssi channel now ts ds2 h] at hd2
      rcases updateExisting_mem _ _ _ _ _ _ _ _ _ _ h d2 hd2 with hin | ⟨d, hdin, rfl⟩
      · exact hpre d2 hin
      · rw [updatedRecord_distance]
        exact calculateDistance_bounds _ _
    | none =>
      rw [updateDevice_devices_none s mac ssid hid rssi channel now ts h] at hd2
      rcases List.mem_append.mp hd2 with hin | hnew
      · exact hpre d2 hin
      · rcases List.mem_singleton.mp hnew with rfl
        rw [newRecord_distance]
        exact calculateDistance_bounds _ _
  · intro s now hpre d2 hd2
    have hd3 : d2 ∈ (cleanupStep s.devices s.kalmanFilters now).1 := hd2
    exact hpre d2 ((cleanupStep_devices_mem s.devices s.kalmanFilters now d2).mp hd3).1

/-- Witness for C4: the staleness sweep on a one-record registry whose
record has distance 1 keeps all distances within bounds. -/
theorem distance_always_clamped_witness :
    (0.1 : ℝ) ≤ 1 ∧ (1 : ℝ) ≤ 50 :=
  distance_always_clamped.2.2
    ⟨[⟨"M", "S", false, -50, 1, 0, true, 6, -50, 1, 0⟩], []⟩ 0
    (by
      intro d hd
      rcases List.mem_singleton.mp hd with rfl
      exact ⟨by norm_num, by norm_num⟩)
    ⟨"M", "S", false, -50, 1, 0, true, 6, -50, 1, 0⟩
    (List.mem_singleton.mpr rfl)

/-! ### Claim C7: the staleness sweep evicts exactly the stale records -/

/-- Claim C7: cleanupOldDevices removes an active record exactly when
now - lastSeen exceeds 15000 ms, never removes it at or before
lastSeen + 15000, and erases the Kalman filter entry of every mac it
removes. -/
theorem evictStale_exact (s : AnchorState) (now : Nat) (d : DeviceInfo)
    (hd : d ∈ s.devices) (ha : d.active = true) :
    (d ∉ (cleanupOldDevices s now).devices ↔ 15000 < now - d.lastSeen) ∧
    (now ≤ d.lastSeen + 15000 → d ∈ (cleanupOldDevices s now).devices) ∧
    (15000 < now - d.lastSeen →
      ∀ p ∈ (cleanupOldDevices s now).kalmanFilters, p.1 ≠ d.mac) := by
  have hmem : ∀ x : DeviceInfo,
      x ∈ (cleanupOldDevices s now).devices ↔
      x ∈ (cleanupStep s.devices s.kalmanFilters now).1 := fun _ => Iff.rfl
  refine ⟨?_, ?_, ?_⟩
  · rw [hmem, cleanupStep_devices_mem]
    constructor
    · intro hnot
      by_contra hns
      exact hnot ⟨hd, fun hc => hns hc.2⟩
    · intro hs hc
      exact hc.2 ⟨ha, hs⟩
  · intro hle
    rw [hmem, cleanupStep_devices_mem]
    refine ⟨hd, ?_⟩
    rintro ⟨_, hs⟩
    omega
  · intro hs p hp
    exact cleanupStep_filters_erased s.devices s.kalmanFilters now d hd ha hs p hp

/-- Witness for C7: a record last seen at 0 is gone after a sweep at
time 20000. -/
theorem evictStale_exact_witness :
    (⟨"M", "S", false, -50, 1, 0, true, 6, -50, 1, 0⟩ : DeviceInfo) ∉
      (cleanupOldDevices ⟨[⟨"M", "S", false, -50, 1, 0, true, 6, -50, 1, 0⟩],
        [("M", kalmanInit)]⟩ 20000).devices :=
  (evictStale_exact ⟨[⟨"M", "S", false, -50, 1, 0, true, 6, -50, 1, 0⟩],
      [("M", kalmanInit)]⟩ 20000 ⟨"M", "S", false, -50, 1, 0, true, 6, -50, 1, 0⟩
    (List.mem_singleton.mpr rfl) rfl).1.mpr (by norm_num)

/-! ### Claim C8: the hidden-label flag clears at most once, never re-sets -/

/-- Claim C8: after any upsert, every record either descends from a
record of the previous state with the same mac whose hidden flag can
only go from hidden to concrete (once cleared, it stays cleared and the
revealed label is never replaced), or is the freshly created record. -/
theorem hidden_label_reveal_once (s : AnchorState) (mac ssid : String) (hid : Bool)
    (rssi channel : Int) (now ts : Nat) :
    ∀ d2 ∈ (updateDevice s mac ssid hid rssi channel now ts).2.devices,
      (∃ d1 ∈ s.devices, d1.mac = d2.mac ∧
        (d2.hidden_ssid = true → d1.hidden_ssid = true) ∧
        (d1.hidden_ssid = false → d2.hidden_ssid = false ∧ d2.ssid = d1.ssid)) ∨
      d2 = newRecord mac ssid hid rssi channel
        (filterStep s.kalmanFilters mac (rssi : ℚ)).1 now ts := by
  intro d2 hd2
  cases h : updateExisting s.devices mac ssid hid rssi channel
      (filterStep s.kalmanFilters mac (rssi : ℚ)).1 now ts with
  | some ds2 =>
    rw [updateDevice_devices_some s mac ssid hid rssi channel now ts ds2 h] at hd2
    rcases updateExisting_mem _ _ _ _ _ _ _ _ _ _ h d2 hd2 with hin | ⟨d, hdin, rfl⟩
    · exact Or.inl ⟨d2, hin, rfl, fun hh => hh, fun hh => ⟨hh, rfl⟩⟩
    · refine Or.inl ⟨d, hdin, (updatedRecord_mac _ _ _ _ _ _ _ _).symm, ?_, ?_⟩
      · rw [updatedRecord_hidden]
        intro hh
        exact (Bool.and_eq_true _ _).mp hh |>.1
      · intro hh
        rw [updatedRecord_hidden, updatedRecord_ssid_of_concrete _ _ _ _ _ _ _ _ hh, hh]
        exact ⟨rfl, rfl⟩
  | none =>
    rw [updateDevice_devices_none s mac ssid hid rssi channel now ts h] at hd2
    rcases List.mem_append.mp hd2 with hin | hnew
    · exact Or.inl ⟨d2, hin, rfl, fun hh => hh, fun hh => ⟨hh, rfl⟩⟩
    · exact Or.inr (List.mem_singleton.mp hnew)

/-- Witness for C8: upserting a hidden observation for a record whose
label is already concrete leaves the label and flag untouched. -/
theorem hidden_label_reveal_once_witness :
    (∃ d1 ∈ ({⟨"M", "S", false, -50, 1, 0, true, 6, -50, 1, 0⟩} : List DeviceInfo),
      d1.mac = (⟨"M", "S", false, -50, 1, 0, true, 6, -50, 1, 0⟩ : DeviceInfo).mac ∧
      ((⟨"M", "S", false, -50, 1, 0, true, 6, -50, 1, 0⟩ : DeviceInfo).hidden_ssid = true →
        d1.hidden_ssid = true) ∧
      (d1.hidden_ssid = false →
        (⟨"M", "S", false, -50, 1, 0, true, 6, -50, 1, 0⟩ : DeviceInfo).hidden_ssid = false ∧
        (⟨"M", "S", false, -50, 1, 0, true, 6, -50, 1, 0⟩ : DeviceInfo).ssid = d1.ssid)) ∨
    (⟨"M", "S", false, -50, 1, 0, true, 6, -50, 1, 0⟩ : DeviceInfo) =
      newRecord "X1" "<Hidden_Network>" true (-60) 6
        (filterStep [] "X1" ((-60 : Int) : ℚ)).1 5 5 :=
  hidden_label_reveal_once ⟨[⟨"M", "S", false, -50, 1, 0, true, 6, -50, 1, 0⟩], []⟩
    "X1" "<Hidden_Network>" true (-60) 6 5 5
    ⟨"M", "S", false, -50, 1, 0, true, 6, -50, 1, 0⟩
    (by
      rw [updateDevice_devices_none _ _ _ _ _ _ _ _ (by rfl)]
      exact List.mem_append_left _ (List.mem_singleton.mpr rfl))

lemma processScanResult_valid (s : AnchorState) (mac ssid : String)
    (rssi channel : Int) (now ts : Nat)
    (hmac : mac.length ≠ 0) (hblock : isOurOwnDevice mac = false) :
    processScanResult s mac ssid rssi channel now ts =
      (updateDevice s mac (if ssid.length = 0 then "<Hidden_Network>" else ssid)
        (decide (ssid.length = 0)) rssi channel now ts).2 := by
  simp only [processScanResult]
  rw [if_neg]
  simp [hmac, hblock]

lemma processScanResult_invalid (s : AnchorState) (mac ssid : String)
    (rssi channel : Int) (now ts : Nat)
    (h : mac.length = 0 ∨ isOurOwnDevice mac = true) :
    processScanResult s mac ssid rssi channel now ts = s := by
  simp only [processScanResult]
  rw [if_pos]
  rcases h with h | h
  · exact Or.inl h
  · exact Or.inr h

/-! ### Claim C9: one record and one filter per identifier, no duplicates -/

/-- Claim C9: an empty or blocklisted mac leaves the state untouched; a
valid observation of an untracked mac creates exactly one record (and,
when none existed, exactly one filter entry) for it; a valid observation
of a tracked mac keeps exactly one record and one filter entry. -/
theorem upsert_unique_creation (s : AnchorState) (mac ssid : String)
    (rssi channel : Int) (now ts : Nat)
    (hmac : mac.length ≠ 0) (hblock : isOurOwnDevice mac = false) :
    (macCount s.devices mac = 0 →
      macCount (processScanResult s mac ssid rssi channel now ts).devices mac = 1) ∧
    (macCount s.devices mac = 1 →
      macCount (processScanResult s mac ssid rssi channel now ts).devices mac = 1) ∧
    (filterCount s.kalmanFilters mac = 0 →
      filterCount (processScanResult s mac ssid rssi channel now ts).kalmanFilters mac = 1) ∧
    (filterCount s.kalmanFilters mac = 1 →
      filterCount (processScanResult s mac ssid rssi channel now ts).kalmanFilters mac = 1) ∧
    (∀ (mac2 ssid2 : String) (rssi2 channel2 : Int) (now2 ts2 : Nat),
      mac2.length = 0 ∨ isOurOwnDevice mac2 = true →
      processScanResult s mac2 ssid2 rssi2 channel2 now2 ts2 = s) := by
  rw [processScanResult_valid s mac ssid rssi channel now ts hmac hblock]
  set ssid2 := if ssid.length = 0 then "<Hidden_Network>" else ssid with hssid2
  set hid := decide (ssid.length = 0) with hhid
  refine ⟨?_, ?_, ?_, ?_, ?_⟩
  · intro h0
    have hnone : updateExisting s.devices mac ssid2 hid rssi channel
        (filterStep s.kalmanFilters mac (rssi : ℚ)).1 now ts = none := by
      rw [updateExisting_none_iff]
      intro d hd
      have := List.countP_eq_zero.mp h0 d hd
      simpa [macCount] using this
    rw [updateDevice_devices_none _ _ _ _ _ _ _ _ hnone, macCount_append_new, h0]
  · intro h1
    cases h : updateExisting s.devices mac ssid2 hid rssi channel
        (filterStep s.kalmanFilters mac (rssi : ℚ)).1 now ts with
    | some ds2 =>
      rw [updateDevice_devices_some _ _ _ _ _ _ _ _ _ h,
          updateExisting_macCount _ _ _ _ _ _ _ _ _ _ h, h1]
    | none =>
      have h0 : macCount s.devices mac = 0 := by
        apply List.countP_eq_zero.mpr
        intro d hd
        have := (updateExisting_none_iff _ _ _ _ _ _ _ _ _).mp h d hd
        simpa [macCount] using this
      rw [h0] at h1
      exact absurd h1 (by norm_num)
  · intro h0
    rw [updateDevice_filters]
    show filterCount (mapSet s.kalmanFilters mac _) mac = 1
    rw [filterCount_mapSet, if_pos h0]
  · intro h1
    rw [updateDevice_filters]
    show filterCount (mapSet s.kalmanFilters mac _) mac = 1
    rw [filterCount_mapSet, if_neg (by rw [h1]; norm_num), h1]
  · intro mac2 ssid3 rssi2 channel2 now2 ts2 h
    exact processScanResult_invalid s mac2 ssid3 rssi2 channel2 now2 ts2 h

/-- Witness for C9: first observation of X1 on the empty registry yields
exactly one X1 record. -/
theorem upsert_unique_creation_witness :
    macCount (processScanResult ⟨[], []⟩ "X1" "Net" (-60) 6 0 0).devices "X1" = 1 :=
  (upsert_unique_creation ⟨[], []⟩ "X1" "Net" (-60) 6 0 0
    (by decide) (by decide)).1 rfl

/-! ### Claim C10: updating keeps the stored channel, refreshes the rest -/

/-- Claim C10: when an upsert hits an existing record (the first active
record with the observed mac), the stored record keeps its old channel
field, while the new distance is computed from the filtered signal and
the observed channel, and raw signal, filtered signal, lastSeen,
packet count and timestamp all come from the new observation. -/
theorem update_keeps_channel (s : AnchorState) (mac ssid : String) (hid : Bool)
    (rssi channel : Int) (now ts : Nat) (pre suf : List DeviceInfo) (d : DeviceInfo)
    (hsplit : s.devices = pre ++ d :: suf)
    (hpre : ∀ d2 ∈ pre, ¬(d2.active = true ∧ d2.mac = mac))
    (ha : d.active = true) (hm : d.mac = mac) :
    (updateDevice s mac ssid hid rssi channel now ts).2.devices =
      pre ++ updatedRecord d ssid hid rssi channel
        (filterStep s.kalmanFilters mac (rssi : ℚ)).1 now ts :: suf ∧
    ∀ filtered : ℚ,
      (updatedRecord d ssid hid rssi channel filtered now ts).channel = d.channel ∧
      (updatedRecord d ssid hid rssi channel filtered now ts).distance =
        calculateDistance (filtered : ℝ) channel ∧
      (updatedRecord d ssid hid rssi channel filtered now ts).rssi = rssi ∧
      (updatedRecord d ssid hid rssi channel filtered now ts).rssi_filtered = filtered ∧
      (updatedRecord d ssid hid rssi channel filtered now ts).lastSeen = now ∧
      (updatedRecord d ssid hid rssi channel filtered now ts).packet_count =
        d.packet_count + 1 ∧
      (updatedRecord d ssid hid rssi channel filtered now ts).timestamp = ts := by
  constructor
  · apply updateDevice_devices_some
    rw [hsplit]
    exact updateExisting_split pre suf d mac ssid hid rssi channel _ now ts hpre ha hm
  · intro filtered
    exact ⟨updatedRecord_channel _ _ _ _ _ _ _ _,
      updatedRecord_distance _ _ _ _ _ _ _ _,
      updatedRecord_rssi _ _ _ _ _ _ _ _,
      updatedRecord_rssi_filtered _ _ _ _ _ _ _ _,
      updatedRecord_lastSeen _ _ _ _ _ _ _ _,
      updatedRecord_packet_count _ _ _ _ _ _ _ _,
      updatedRecord_timestamp _ _ _ _ _ _ _ _⟩

/-- Witness for C10: updating the single record for mac M with an
observation on channel 11 leaves the stored record list as the one
updated record. -/
theorem update_keeps_channel_witness :
    (updateDevice ⟨[⟨"M", "S", false, -50, 1, 0, true, 6, -50, 1, 0⟩],
        [("M", kalmanInit)]⟩ "M" "S2" false (-55) 11 9 9).2.devices =
      [updatedRecord ⟨"M", "S", false, -50, 1, 0, true, 6, -50, 1, 0⟩ "S2" false
        (-55) 11 (filterStep [("M", kalmanInit)] "M" ((-55 : Int) : ℚ)).1 9 9] :=
  (update_keeps_channel ⟨[⟨"M", "S", false, -50, 1, 0, true, 6, -50, 1, 0⟩],
      [("M", kalmanInit)]⟩ "M" "S2" false (-55) 11 9 9 [] []
    ⟨"M", "S", false, -50, 1, 0, true, 6, -50, 1, 0⟩ rfl (by simp) rfl rfl).1

/-! ### Claim C2: the X1 / channel 6 / RSSI -60 scenario -/

lemma rpow_sc_ge_one : (1:ℝ) ≤ (10:ℝ) ^ ((15:ℝ)/23) :=
  Real.one_le_rpow (by norm_num) (by norm_num)

lemma rpow_sc_le_ten : (10:ℝ) ^ ((15:ℝ)/23) ≤ 10 := by
  calc (10:ℝ) ^ ((15:ℝ)/23) ≤ (10:ℝ) ^ (1:ℝ) :=
        Real.rpow_le_rpow_of_exponent_le (by norm_num) (by norm_num)
    _ = 10 := Real.rpow_one _

lemma first_filtered_neg60 : (filterStep [] "X1" ((-60 : Int) : ℚ)).1 = -660/31 := by
  norm_num [filterStep, mapFind, kalmanUpdate, kalmanInit, kalmanQ, kalmanR]

lemma calculateDistance_filtered_sc : calculateDistance (((-660/31 : ℚ)) : ℝ) 6 = 0.1 := by
  unfold calculateDistance
  rw [if_pos]
  show ((((23:ℚ)/10, (-45:ℚ)).2 : ℚ) : ℝ) ≤ _
  push_cast
  norm_num

lemma calculateDistance_neg60_6 : calculateDistance (-60) 6 = (10:ℝ) ^ ((15:ℝ)/23) := by
  unfold calculateDistance
  rw [show calibFor 6 = ((23:ℚ)/10, (-45:ℚ)) from rfl]
  rw [if_neg (by push_cast; norm_num : ¬((((23:ℚ)/10, (-45:ℚ)).2 : ℝ) ≤ (-60:ℝ)))]
  have he : ((((23:ℚ)/10, (-45:ℚ)).2 : ℝ) - (-60)) / (10 * (((23:ℚ)/10, (-45:ℚ)).1 : ℝ)) =
      (15:ℝ)/23 := by
    push_cast
    norm_num
  rw [he]
  unfold bandCorrect
  rw [if_neg (by norm_num : ¬(14:Int) < 6)]
  unfold clampB
  rw [if_neg (by nlinarith [rpow_sc_le_ten] : ¬(50:ℝ) < (10:ℝ) ^ ((15:ℝ)/23)),
      if_neg (by nlinarith [rpow_sc_ge_one] : ¬(10:ℝ) ^ ((15:ℝ)/23) < 0.1)]

/-- Counterexample for C2: processing the scenario observation (mac X1,
SSID Net, channel 6, raw RSSI -60) on the empty registry does create one
record, but its stored distance is the minimum clamp 0.1, not
10^((-45 - (-60)) / (10 * 2.3)): updateDevice computes the distance from
the Kalman-filtered RSSI, and a fresh filter (X = 0, P = 1) turns the
first -60 sample into -660/31, which is at or above the reference A. -/
theorem scenario_x1_counterexample :
    ((processScanResult ⟨[], []⟩ "X1" "Net" (-60) 6 0 0).devices.map
      (fun d => d.distance)) = [(0.1 : ℝ)] ∧
    (0.1 : ℝ) ≠ (10:ℝ) ^ (((-45:ℝ) - (-60)) / (10 * (23/10 : ℝ))) := by
  constructor
  · rw [processScanResult_valid _ _ _ _ _ _ _ (by decide) (by decide),
        updateDevice_devices_none _ _ _ _ _ _ _ _ (by rfl)]
    simp only [List.nil_append, List.map_cons, List.map_nil, newRecord_distance]
    rw [show (filterStep (⟨[], []⟩ : AnchorState).kalmanFilters "X1" ((-60 : Int) : ℚ)).1 =
          (-660/31 : ℚ) from first_filtered_neg60]
    rw [calculateDistance_filtered_sc]
  · have he : ((-45:ℝ) - (-60)) / (10 * (23/10 : ℝ)) = (15:ℝ)/23 := by norm_num
    rw [he]
    intro h
    nlinarith [rpow_sc_ge_one]

/-- Amended C2: the scenario observation creates exactly one new record
(for X1), and the distance estimator applied directly to the raw signal
-60 on channel 6 does equal 10^((-45 - (-60)) / (10 * 2.3)), within the
clamp bounds; the stored distance of the created record, however, is
0.1, because it is computed from the Kalman-filtered signal and the
fresh filter starts at X = 0. -/
theorem scenario_x1_amended :
    ((processScanResult ⟨[], []⟩ "X1" "Net" (-60) 6 0 0).devices.map
      (fun d => d.mac)) = ["X1"] ∧
    ((processScanResult ⟨[], []⟩ "X1" "Net" (-60) 6 0 0).devices.map
      (fun d => d.distance)) = [(0.1 : ℝ)] ∧
    calculateDistance (-60) 6 = (10:ℝ) ^ (((-45:ℝ) - (-60)) / (10 * (23/10 : ℝ))) ∧
    0.1 ≤ calculateDistance (-60) 6 ∧ calculateDistance (-60) 6 ≤ 50 := by
  refine ⟨?_, ?_, ?_, (calculateDistance_bounds _ _).1, (calculateDistance_bounds _ _).2⟩
  · rw [processScanResult_valid _ _ _ _ _ _ _ (by decide) (by decide),
        updateDevice_devices_none _ _ _ _ _ _ _ _ (by rfl)]
    rfl
  · rw [processScanResult_valid _ _ _ _ _ _ _ (by decide) (by decide),
        updateDevice_devices_none _ _ _ _ _ _ _ _ (by rfl)]
    simp only [List.nil_append, List.map_cons, List.map_nil, newRecord_distance]
    rw [show (filterStep (⟨[], []⟩ : AnchorState).kalmanFilters "X1" ((-60 : Int) : ℚ)).1 =
          (-660/31 : ℚ) from first_filtered_neg60]
    rw [calculateDistance_filtered_sc]
  · have he : ((-45:ℝ) - (-60)) / (10 * (23/10 : ℝ)) = (15:ℝ)/23 := by norm_num
    rw [he]
    exact calculateDistance_neg60_6

/-! ### Claim C1: fixed capacity of the model A registry -/

lemma updateExistingA_length (ds ds2 : List DeviceInfoA) (mac : String) (rssi : Int)
    (now : Nat) (h : updateExistingA ds mac rssi now = some ds2) :
    ds2.length = ds.length := by
  induction ds generalizing ds2 with
  | nil => simp [updateExistingA] at h
  | cons d rest ih =>
    simp only [updateExistingA] at h
    by_cases hm : d.active && d.mac == mac
    · rw [if_pos hm] at h
      injection h with h
      subst h
      simp
    · rw [if_neg hm] at h
      cases hrec : updateExistingA rest mac rssi now with
      | none => rw [hrec] at h; simp at h
      | some r =>
        rw [hrec] at h
        injection h with h
        subst h
        simp [ih r hrec]

lemma addNewA_length (ds ds2 : List DeviceInfoA) (mac : String) (rssi : Int)
    (now : Nat) (h : addNewA ds mac rssi now = some ds2) :
    ds2.length = ds.length := by
  induction ds generalizing ds2 with
  | nil => simp [addNewA] at h
  | cons d rest ih =>
    simp only [addNewA] at h
    by_cases hm : !d.active
    · rw [if_pos hm] at h
      injection h with h
      subst h
      simp
    · rw [if_neg hm] at h
      cases hrec : addNewA rest mac rssi now with
      | none => rw [hrec] at h; simp at h
      | some r =>
        rw [hrec] at h
        injection h with h
        subst h
        simp [ih r hrec]

lemma updateDeviceA_length (ds : List DeviceInfoA) (mac : String) (rssi : Int)
    (now : Nat) : ((updateDeviceA ds mac rssi now).2).length = ds.length := by
  unfold updateDeviceA
  cases h1 : updateExistingA ds mac rssi now with
  | some ds2 => exact updateExistingA_length ds ds2 mac rssi now h1
  | none =>
    cases h2 : addNewA ds mac rssi now with
    | some ds2 => exact addNewA_length ds ds2 mac rssi now h2
    | none => rfl

lemma foldl_updateA_length (obs : List (String × Int × Nat)) (ds : List DeviceInfoA) :
    (obs.foldl (fun ds o => (updateDeviceA ds o.1 o.2.1 o.2.2).2) ds).length =
      ds.length := by
  induction obs generalizing ds with
  | nil => rfl
  | cons o rest ih => rw [List.foldl_cons, ih, updateDeviceA_length]

lemma updateExistingA_none (ds : List DeviceInfoA) (mac : String) (rssi : Int)
    (now : Nat) (h : ∀ d ∈ ds, d.mac ≠ mac) :
    updateExistingA ds mac rssi now = none := by
  induction ds with
  | nil => rfl
  | cons d rest ih =>
    have hm : ¬(d.active && d.mac == mac) = true := by
      simp only [Bool.and_eq_true, beq_iff_eq, not_and]
      intro _
      exact h d (List.mem_cons_self _ _)
    simp only [updateExistingA, if_neg hm,
      ih (fun d2 hd2 => h d2 (List.mem_cons_of_mem _ hd2))]

lemma addNewA_none (ds : List DeviceInfoA) (mac : String) (rssi : Int)
    (now : Nat) (h : ∀ d ∈ ds, d.active = true) :
    addNewA ds mac rssi now = none := by
  induction ds with
  | nil => rfl
  | cons d rest ih =>
    have hm : ¬(!d.active) = true := by
      rw [h d (List.mem_cons_self _ _)]
      decide
    simp only [addNewA, if_neg hm,
      ih (fun d2 hd2 => h d2 (List.mem_cons_of_mem _ hd2))]

/-- Claim C1: any sequence of upserts starting from the initialised
10-slot array keeps the active-device count at or below the capacity 10,
and an upsert for an unseen mac on a fully active registry returns false
and leaves every slot exactly as it was. -/
theorem registry_capacity (obs : List (String × Int × Nat)) :
    countActiveDevicesA (applyAllA obs) ≤ 10 ∧
    ∀ (ds : List DeviceInfoA) (mac : String) (rssi : Int) (now : Nat),
      (∀ d ∈ ds, d.active = true) → (∀ d ∈ ds, d.mac ≠ mac) →
      updateDeviceA ds mac rssi now = (false, ds) := by
  constructor
  · calc countActiveDevicesA (applyAllA obs)
        ≤ (applyAllA obs).length := List.countP_le_length _
      _ = 10 := by
        unfold applyAllA
        rw [foldl_updateA_length]
        rfl
  · intro ds mac rssi now hact hmac
    unfold updateDeviceA
    rw [updateExistingA_none ds mac rssi now hmac, addNewA_none ds mac rssi now hact]

/-- Witness for C1: one upsert from the initial array stays within
capacity, and an 11th distinct mac on a full registry of 10 active
records is rejected unchanged. -/
theorem registry_capacity_witness :
    countActiveDevicesA (applyAllA [("M1", -50, 0)]) ≤ 10 ∧
    updateDeviceA (List.replicate 10 ⟨"M", 0, 1, 0, true⟩) "X" (-50) 5 =
      (false, List.replicate 10 ⟨"M", 0, 1, 0, true⟩) :=
  ⟨(registry_capacity [("M1", -50, 0)]).1,
   (registry_capacity [("M1", -50, 0)]).2 (List.replicate 10 ⟨"M", 0, 1, 0, true⟩)
     "X" (-50) 5
     (fun d hd => by rw [List.eq_of_mem_replicate hd])
     (fun d hd => by rw [List.eq_of_mem_replicate hd]; decide)⟩

end IndoorPositioning
